import Mathlib

/-!
Shallow embedding of `src/mcp_linkedin/client.py`: a facade of tool
functions over a LinkedIn API client.  Python values are modelled by
`Val`, raised exceptions by the error side of `Except String`, and the
external client by a structure of delegated methods.
-/

/-- Model of a Python value as it flows through this module: strings,
integers, lists, dictionaries with string keys, and `None`. -/
inductive Val where
  | str : String → Val
  | int : Int → Val
  | list : List Val → Val
  | dict : List (String × Val) → Val
  | none : Val

mutual

/-- Python `repr` of a value (used by `str` on containers). -/
def pyRepr : Val → String
  | Val.str s => "\x27" ++ s ++ "\x27"
  | Val.int n => toString n
  | Val.none => "None"
  | Val.list xs => "[" ++ pyReprList xs ++ "]"
  | Val.dict kvs => "\x7b" ++ pyReprDict kvs ++ "\x7d"

/-- Comma-separated `repr` of list elements. -/
def pyReprList : List Val → String
  | [] => ""
  | [x] => pyRepr x
  | x :: xs => pyRepr x ++ ", " ++ pyReprList xs

/-- Comma-separated `repr` of dict entries. -/
def pyReprDict : List (String × Val) → String
  | [] => ""
  | [(k, v)] => "\x27" ++ k ++ "\x27: " ++ pyRepr v
  | (k, v) :: kvs => "\x27" ++ k ++ "\x27: " ++ pyRepr v ++ ", " ++ pyReprDict kvs

end

/-- Python `str` of a value, as used by f-string interpolation. -/
def pyStr : Val → String
  | Val.str s => s
  | v => pyRepr v

/-- Python subscript `v[k]` with a string key: looks the key up in a
dict, raising `KeyError` when absent and `TypeError`-style errors on
non-dict receivers. -/
def pyIndexS (v : Val) (k : String) : Except String Val :=
  match v with
  | Val.dict kvs =>
    match List.lookup k kvs with
    | some w => Except.ok w
    | Option.none => Except.error ("\x27" ++ k ++ "\x27")
  | Val.list _ => Except.error "list indices must be integers or slices, not str"
  | Val.str _ => Except.error "string indices must be integers"
  | Val.int _ => Except.error "\x27int\x27 object is not subscriptable"
  | Val.none => Except.error "\x27NoneType\x27 object is not subscriptable"

/-- Python `v.get(k, default)`: defaults on a missing key of a dict,
raises `AttributeError` on any non-dict receiver. -/
def pyGet (v : Val) (k : String) (default : Val) : Except String Val :=
  match v with
  | Val.dict kvs => Except.ok ((List.lookup k kvs).getD default)
  | Val.none => Except.error "\x27NoneType\x27 object has no attribute \x27get\x27"
  | Val.str _ => Except.error "\x27str\x27 object has no attribute \x27get\x27"
  | Val.int _ => Except.error "\x27int\x27 object has no attribute \x27get\x27"
  | Val.list _ => Except.error "\x27list\x27 object has no attribute \x27get\x27"

/-- Python subscript `v[0]`: head of a list, raising `IndexError` on an
empty list and `TypeError`-style errors on non-sequences. -/
def pyIndex0 (v : Val) : Except String Val :=
  match v with
  | Val.list [] => Except.error "list index out of range"
  | Val.list (x :: _) => Except.ok x
  | Val.str s =>
    match s.data with
    | [] => Except.error "string index out of range"
    | c :: _ => Except.ok (Val.str (String.singleton c))
  | Val.dict _ => Except.error "0"
  | Val.int _ => Except.error "\x27int\x27 object is not subscriptable"
  | Val.none => Except.error "\x27NoneType\x27 object is not iterable"

/-- Python iteration `for x in v`: lists yield elements, strings their
characters, dicts their keys; other values raise `TypeError`. -/
def asList (v : Val) : Except String (List Val) :=
  match v with
  | Val.list xs => Except.ok xs
  | Val.str s => Except.ok (s.data.map (fun c => Val.str (String.singleton c)))
  | Val.dict kvs => Except.ok (kvs.map (fun kv => Val.str kv.1))
  | Val.int _ => Except.error "\x27int\x27 object is not iterable"
  | Val.none => Except.error "\x27NoneType\x27 object is not iterable"

/-- Python `str.split(sep)` on the character list of a string, for a
one-character separator: left-to-right split keeping empty segments. -/
def splitCh (sep : Char) : List Char → List (List Char)
  | [] => [[]]
  | c :: cs =>
    match splitCh sep cs with
    | [] => [[]]
    | r :: rs => if c = sep then [] :: r :: rs else (c :: r) :: rs

/-- The job-identifier extraction of `search_jobs`:
`entity_urn.split(":")[-1]`, the segment after the last colon. -/
def extract_job_id (s : String) : String :=
  String.mk ((splitCh ':' s.data).getLastD [])

/-- Python `v.split(":")[-1]` on a value: requires a string receiver. -/
def splitLastColon (v : Val) : Except String String :=
  match v with
  | Val.str s => Except.ok (extract_job_id s)
  | Val.dict _ => Except.error "\x27dict\x27 object has no attribute \x27split\x27"
  | Val.list _ => Except.error "\x27list\x27 object has no attribute \x27split\x27"
  | Val.int _ => Except.error "\x27int\x27 object has no attribute \x27split\x27"
  | Val.none => Except.error "\x27NoneType\x27 object has no attribute \x27split\x27"

/-- Python truthiness of an optional string argument (`if public_id:`):
`None` and the empty string are falsy. -/
def truthyOptStr : Option String → Bool
  | Option.none => false
  | some s => !s.isEmpty

/-- The external `linkedin_api.Linkedin` client, modelled as the record
of delegated methods this module invokes; each may fail with the
description of the raised exception. -/
structure Linkedin where
  get_feed_posts : Int → Int → Except String Val
  search_jobs : String → String → Int → Int → Except String Val
  get_job : String → Except String Val
  post : String → String → Except String Val
  get_profile : Option String → Except String Val
  get_company : String → Except String Val
  get_connections : Int → Except String Val
  join_group : String → Except String Val
  get_group_posts : String → Int → Except String Val
  send_invitation : String → Option String → Except String Val
  get_invitations : Int → Except String Val
  send_message : List Val → String → Except String Val
  get_conversations : Int → Except String Val
  update_company_page : String → Val → Except String Val
  company_share : String → Val → Except String Val
  get_company_analytics : String → Except String Val
  get_post_stats : String → Except String Val

/-- A client every delegated method of which raises with description
`e`; used to exercise the failure paths. -/
def failClient (e : String) : Linkedin where
  get_feed_posts := fun _ _ => Except.error e
  search_jobs := fun _ _ _ _ => Except.error e
  get_job := fun _ => Except.error e
  post := fun _ _ => Except.error e
  get_profile := fun _ => Except.error e
  get_company := fun _ => Except.error e
  get_connections := fun _ => Except.error e
  join_group := fun _ => Except.error e
  get_group_posts := fun _ _ => Except.error e
  send_invitation := fun _ _ => Except.error e
  get_invitations := fun _ => Except.error e
  send_message := fun _ _ => Except.error e
  get_conversations := fun _ => Except.error e
  update_company_page := fun _ _ => Except.error e
  company_share := fun _ _ => Except.error e
  get_company_analytics := fun _ => Except.error e
  get_post_stats := fun _ => Except.error e

/-- The `try ... except Exception as e: return f"Error: {e}"` wrapper:
a failure of the body becomes a normally returned error string. -/
def tryTo (body : Except String String) : String :=
  match body with
  | Except.ok s => s
  | Except.error e => "Error: " ++ e

/-- Formatting of one feed item: `f"Post by {urn['author_name']}: {urn['content']}\n"`
with unguarded subscripting, as in the loop after the `try` block. -/
def feedLine (urn : Val) : Except String String := do
  let a ← pyIndexS urn "author_name"
  let c ← pyIndexS urn "content"
  pure ("Post by " ++ pyStr a ++ ": " ++ pyStr c ++ "\n")

/-- Tool `get_feed_posts`: the delegated feed call is guarded, the
client construction and the formatting loop are not. -/
def get_feed_posts (gc : Except String Linkedin) (limit offset : Int) :
    Except String String :=
  match gc with
  | Except.error e => Except.error e
  | Except.ok client =>
    match client.get_feed_posts limit offset with
    | Except.error e => Except.ok ("Error: " ++ e)
    | Except.ok post_urns => do
      let urns ← asList post_urns
      urns.foldlM (fun posts urn => do
        let line ← feedLine urn
        pure (posts ++ line)) ""

/-- Formatting of one job result of `search_jobs`: identifier
extraction, the per-job detail fetch, and the nested field accesses. -/
def jobBlock (client : Linkedin) (job : Val) : Except String String := do
  let eu ← pyIndexS job "entityUrn"
  let job_id ← splitLastColon eu
  let job_data ← client.get_job job_id
  let job_title ← pyIndexS job_data "title"
  let cd ← pyIndexS job_data "companyDetails"
  let wc ← pyIndexS cd "com.linkedin.voyager.deco.jobs.web.shared.WebCompactJobPostingCompany"
  let crr ← pyIndexS wc "companyResolutionResult"
  let company_name ← pyIndexS crr "name"
  let descObj ← pyIndexS job_data "description"
  let job_description ← pyIndexS descObj "text"
  let job_location ← pyIndexS job_data "formattedLocation"
  pure ("Job by " ++ pyStr job_title ++ " at " ++ pyStr company_name ++
    " in " ++ pyStr job_location ++ ": " ++ pyStr job_description ++ "\n\n")

/-- Tool `search_jobs`: entirely unguarded; any delegated failure
propagates to the caller. -/
def search_jobs (gc : Except String Linkedin) (keywords : String)
    (limit offset : Int) (location : String) : Except String String := do
  let client ← gc
  let jobs ← client.search_jobs keywords location limit offset
  let jobList ← asList jobs
  jobList.foldlM (fun job_results job => do
    let block ← jobBlock client job
    pure (job_results ++ block)) ""

/-- Tool `create_share_update`: guarded call to `client.post`. -/
def create_share_update (gc : Except String Linkedin)
    (comment visibility_code : String) : Except String String :=
  match gc with
  | Except.error e => Except.error e
  | Except.ok client =>
    Except.ok (tryTo (do
      let post ← client.post comment visibility_code
      pure ("Post creado exitosamente: " ++ pyStr post)))

/-- Formatting of a profile inside `get_profile`, with safe-default
field lookups. -/
def profileFields (profile : Val) : Except String String := do
  let fn ← pyGet profile "firstName" (Val.str "")
  let ln ← pyGet profile "lastName" (Val.str "")
  let hl ← pyGet profile "headline" (Val.str "")
  let loc ← pyGet profile "locationName" (Val.str "")
  let ind ← pyGet profile "industryName" (Val.str "")
  pure ("\n        Nombre: " ++ pyStr fn ++ " " ++ pyStr ln ++
    "\n        Título: " ++ pyStr hl ++
    "\n        Ubicación: " ++ pyStr loc ++
    "\n        Industria: " ++ pyStr ind ++
    "\n        ")

/-- Tool `get_profile`: `if public_id:` selects the named profile,
otherwise the fetch is invoked with no argument. -/
def get_profile (gc : Except String Linkedin) (public_id : Option String) :
    Except String String :=
  match gc with
  | Except.error e => Except.error e
  | Except.ok client =>
    Except.ok (tryTo (do
      let profile ←
        if truthyOptStr public_id then client.get_profile public_id
        else client.get_profile Option.none
      profileFields profile))

/-- Formatting of a company inside `get_company`, including the nested
staff-count range with `.get(..., {})` defaults. -/
def companyFields (company : Val) : Except String String := do
  let nm ← pyGet company "name" (Val.str "")
  let ind ← pyGet company "industryName" (Val.str "")
  let url ← pyGet company "companyPageUrl" (Val.str "")
  let scr1 ← pyGet company "staffCountRange" (Val.dict [])
  let scStart ← pyGet scr1 "start" (Val.str "")
  let scr2 ← pyGet company "staffCountRange" (Val.dict [])
  let scEnd ← pyGet scr2 "end" (Val.str "")
  let desc ← pyGet company "description" (Val.str "")
  pure ("\n        Nombre: " ++ pyStr nm ++
    "\n        Industria: " ++ pyStr ind ++
    "\n        Sitio Web: " ++ pyStr url ++
    "\n        Tamaño: " ++ pyStr scStart ++ " - " ++ pyStr scEnd ++ " empleados" ++
    "\n        Descripción: " ++ pyStr desc ++
    "\n        ")

/-- Tool `get_company`: guarded fetch and formatting. -/
def get_company (gc : Except String Linkedin) (company_id : String) :
    Except String String :=
  match gc with
  | Except.error e => Except.error e
  | Except.ok client =>
    Except.ok (tryTo (do
      let company ← client.get_company company_id
      companyFields company))

/-- Formatting of one connection line of `get_connections`. -/
def connLine (connection : Val) : Except String String := do
  let fn ← pyGet connection "firstName" (Val.str "")
  let ln ← pyGet connection "lastName" (Val.str "")
  let hl ← pyGet connection "headline" (Val.str "")
  pure ("- " ++ pyStr fn ++ " " ++ pyStr ln ++ ": " ++ pyStr hl ++ "\n")

/-- Tool `get_connections`: guarded listing under the header
`"Conexiones:\n"`. -/
def get_connections (gc : Except String Linkedin) (limit : Int) :
    Except String String :=
  match gc with
  | Except.error e => Except.error e
  | Except.ok client =>
    Except.ok (tryTo (do
      let connections ← client.get_connections limit
      let items ← asList connections
      items.foldlM (fun result connection => do
        let line ← connLine connection
        pure (result ++ line)) "Conexiones:\n"))

/-- Tool `join_group`: guarded delegated call. -/
def join_group (gc : Except String Linkedin) (group_id : String) :
    Except String String :=
  match gc with
  | Except.error e => Except.error e
  | Except.ok client =>
    Except.ok (tryTo (do
      let result ← client.join_group group_id
      pure ("Unido al grupo exitosamente: " ++ pyStr result)))

/-- Formatting of one group post line of `get_group_posts`. -/
def groupPostLine (post : Val) : Except String String := do
  let a ← pyGet post "author" (Val.str "")
  let c ← pyGet post "content" (Val.str "")
  pure ("- " ++ pyStr a ++ ": " ++ pyStr c ++ "\n")

/-- Tool `get_group_posts`: guarded listing under the group header. -/
def get_group_posts (gc : Except String Linkedin) (group_id : String)
    (limit : Int) : Except String String :=
  match gc with
  | Except.error e => Except.error e
  | Except.ok client =>
    Except.ok (tryTo (do
      let posts ← client.get_group_posts group_id limit
      let items ← asList posts
      items.foldlM (fun result post => do
        let line ← groupPostLine post
        pure (result ++ line)) ("Posts del grupo " ++ group_id ++ ":\n")))

/-- Tool `send_invitation`: guarded delegated call. -/
def send_invitation (gc : Except String Linkedin) (public_id : String)
    (message : Option String) : Except String String :=
  match gc with
  | Except.error e => Except.error e
  | Except.ok client =>
    Except.ok (tryTo (do
      let result ← client.send_invitation public_id message
      pure ("Invitación enviada exitosamente: " ++ pyStr result)))

/-- Formatting of one pending-invitation line, with the nested
`fromMember` lookups defaulting to an empty dict. -/
def invLine (inv : Val) : Except String String := do
  let fm1 ← pyGet inv "fromMember" (Val.dict [])
  let fn ← pyGet fm1 "firstName" (Val.str "")
  let fm2 ← pyGet inv "fromMember" (Val.dict [])
  let ln ← pyGet fm2 "lastName" (Val.str "")
  pure ("- De: " ++ pyStr fn ++ " " ++ pyStr ln ++ "\n")

/-- Tool `get_pending_invitations`: guarded listing under the header
`"Invitaciones pendientes:\n"`. -/
def get_pending_invitations (gc : Except String Linkedin) (limit : Int) :
    Except String String :=
  match gc with
  | Except.error e => Except.error e
  | Except.ok client =>
    Except.ok (tryTo (do
      let invitations ← client.get_invitations limit
      let items ← asList invitations
      items.foldlM (fun result inv => do
        let line ← invLine inv
        pure (result ++ line)) "Invitaciones pendientes:\n"))

/-- Tool `send_message`: guarded delegated call. -/
def send_message (gc : Except String Linkedin) (recipients : List Val)
    (message : String) : Except String String :=
  match gc with
  | Except.error e => Except.error e
  | Except.ok client =>
    Except.ok (tryTo (do
      let result ← client.send_message recipients message
      pure ("Mensaje enviado exitosamente: " ++ pyStr result)))

/-- Formatting of one conversation line: the first participant is taken
by unguarded `[0]` subscripting on the (possibly defaulted) list. -/
def convLine (conv : Val) : Except String String := do
  let p1 ← pyGet conv "participants" (Val.list [])
  let x1 ← pyIndex0 p1
  let fn ← pyGet x1 "firstName" (Val.str "")
  let p2 ← pyGet conv "participants" (Val.list [])
  let x2 ← pyIndex0 p2
  let ln ← pyGet x2 "lastName" (Val.str "")
  pure ("- Con: " ++ pyStr fn ++ " " ++ pyStr ln ++ "\n")

/-- Tool `get_conversations`: guarded listing under the header
`"Conversaciones recientes:\n"`. -/
def get_conversations (gc : Except String Linkedin) (limit : Int) :
    Except String String :=
  match gc with
  | Except.error e => Except.error e
  | Except.ok client =>
    Except.ok (tryTo (do
      let conversations ← client.get_conversations limit
      let items ← asList conversations
      items.foldlM (fun result conv => do
        let line ← convLine conv
        pure (result ++ line)) "Conversaciones recientes:\n"))

/-- Tool `manage_company_page`: dispatch on the action string inside
the guard, with `"Acción no válida"` for unknown actions. -/
def manage_company_page (gc : Except String Linkedin)
    (company_id action : String) (data : Val) : Except String String :=
  match gc with
  | Except.error e => Except.error e
  | Except.ok client =>
    Except.ok (tryTo (
      if action = "update" then do
        let result ← client.update_company_page company_id data
        pure ("Operación completada exitosamente: " ++ pyStr result)
      else if action = "post" then do
        let content ← pyGet data "content" (Val.str "")
        let result ← client.company_share company_id content
        pure ("Operación completada exitosamente: " ++ pyStr result)
      else if action = "get_analytics" then do
        let result ← client.get_company_analytics company_id
        pure ("Operación completada exitosamente: " ++ pyStr result)
      else
        pure "Acción no válida"))

/-- Formatting of the statistics block of `get_post_analytics`, with
numeric defaults of zero and a default engagement rate. -/
def statsFields (post_id : String) (stats : Val) : Except String String := do
  let likes ← pyGet stats "numLikes" (Val.int 0)
  let comments ← pyGet stats "numComments" (Val.int 0)
  let shares ← pyGet stats "numShares" (Val.int 0)
  let impressions ← pyGet stats "impressionCount" (Val.int 0)
  let engagement ← pyGet stats "engagementRate" (Val.str "0%")
  pure ("\n        Estadísticas del post " ++ post_id ++ ":" ++
    "\n        Likes: " ++ pyStr likes ++
    "\n        Comentarios: " ++ pyStr comments ++
    "\n        Compartidos: " ++ pyStr shares ++
    "\n        Impresiones: " ++ pyStr impressions ++
    "\n        Engagement: " ++ pyStr engagement ++
    "\n        ")

/-- Tool `get_post_analytics`: guarded fetch and formatting. -/
def get_post_analytics (gc : Except String Linkedin) (post_id : String) :
    Except String String :=
  match gc with
  | Except.error e => Except.error e
  | Except.ok client =>
    Except.ok (tryTo (do
      let stats ← client.get_post_stats post_id
      statsFields post_id stats))

/-- A client that fails on everything except a conversation listing
that yields one conversation with every field missing. -/
def convMissingClient : Linkedin :=
  { failClient "unused" with
    get_conversations := fun _ => Except.ok (Val.list [Val.dict []]) }

theorem splitCh_ne_nil (sep : Char) (l : List Char) : splitCh sep l ≠ [] := by
  induction l with
  | nil => simp [splitCh]
  | cons c cs ih =>
    cases hs : splitCh sep cs with
    | nil => simp [splitCh, hs]
    | cons r rs =>
      simp only [splitCh, hs]
      split <;> simp

theorem splitCh_of_not_mem (sep : Char) (l : List Char) (h : sep ∉ l) :
    splitCh sep l = [l] := by
  induction l with
  | nil => rfl
  | cons c cs ih =>
    have hc : ¬ c = sep := fun hcs => h (hcs ▸ List.mem_cons_self c cs)
    have hcs : sep ∉ cs := fun hm => h (List.mem_cons_of_mem c hm)
    simp only [splitCh, ih hcs, hc, if_false]

theorem two_le_length_splitCh (sep : Char) (l : List Char) (h : sep ∈ l) :
    2 ≤ (splitCh sep l).length := by
  induction l with
  | nil => cases h
  | cons c cs ih =>
    simp only [splitCh]
    cases hs : splitCh sep cs with
    | nil => exact absurd hs (splitCh_ne_nil sep cs)
    | cons r rs =>
      by_cases hc : c = sep
      · simp [hc]
      · have hm : sep ∈ cs := by
          cases List.mem_cons.mp h with
          | inl h1 => exact absurd h1.symm hc
          | inr h2 => exact h2
        have := ih hm
        rw [hs] at this
        simp only [hc, if_false, List.length_cons] at this ⊢
        omega

theorem getLastD_cons_of_ne_nil {α : Type} (a : α) (l : List α) (d : α)
    (h : l ≠ []) : (a :: l).getLastD d = l.getLastD d := by
  cases l with
  | nil => exact absurd rfl h
  | cons b m => rfl

theorem getLastD_splitCh_append (sep : Char) (pre seg : List Char)
    (d : List Char) (h : sep ∉ seg) :
    (splitCh sep (pre ++ sep :: seg)).getLastD d = seg := by
  induction pre with
  | nil =>
    simp only [List.nil_append, splitCh, splitCh_of_not_mem sep seg h, if_pos rfl]
    rfl
  | cons c cs ih =>
    have hmem : sep ∈ cs ++ sep :: seg := List.mem_append_right cs (List.mem_cons_self sep seg)
    simp only [List.cons_append, splitCh]
    cases hs : splitCh sep (cs ++ sep :: seg) with
    | nil => exact absurd hs (splitCh_ne_nil sep _)
    | cons r rs =>
      have hlen : 2 ≤ (r :: rs).length := hs ▸ two_le_length_splitCh sep _ hmem
      have hrs : rs ≠ [] := by
        cases rs with
        | nil => simp at hlen
        | cons x xs => exact List.cons_ne_nil x xs
      have hih : (r :: rs).getLastD d = seg := by
        have := ih
        rw [hs] at this
        exact this
      show (if c = sep then [] :: r :: rs else (c :: r) :: rs).getLastD d = seg
      by_cases hc : c = sep
      · rw [if_pos hc]
        rw [getLastD_cons_of_ne_nil _ _ _ (List.cons_ne_nil r rs)]
        exact hih
      · rw [if_neg hc]
        rw [getLastD_cons_of_ne_nil _ _ _ hrs]
        rw [getLastD_cons_of_ne_nil _ _ _ hrs] at hih
        exact hih

theorem extract_job_id_after_last_colon (pre seg : String) (h : ':' ∉ seg.data) :
    extract_job_id (pre ++ ":" ++ seg) = seg := by
  unfold extract_job_id
  have hd : (pre ++ ":" ++ seg).data = pre.data ++ ':' :: seg.data := by
    rw [String.data_append, String.data_append]
    simp
  rw [hd, getLastD_splitCh_append ':' pre.data seg.data [] h]

/-- C1: for every guarded operation (share update, profile, company,
connections, group join, group posts, invitation send/list, direct
message, conversations, company-page management in each of its three
actions, post analytics, and the guarded feed-retrieval delegated
call), a delegated-call failure with description `e` makes the
operation return normally with the string `"Error: " ++ e`. -/
theorem C1_guarded_errors :
    (∀ (c : Linkedin) (e : String) (limit offset : Int),
        c.get_feed_posts limit offset = Except.error e →
        get_feed_posts (Except.ok c) limit offset = Except.ok ("Error: " ++ e))
  ∧ (∀ (c : Linkedin) (e comment vis : String),
        c.post comment vis = Except.error e →
        create_share_update (Except.ok c) comment vis = Except.ok ("Error: " ++ e))
  ∧ (∀ (c : Linkedin) (e : String) (pid : Option String),
        (∀ arg, c.get_profile arg = Except.error e) →
        get_profile (Except.ok c) pid = Except.ok ("Error: " ++ e))
  ∧ (∀ (c : Linkedin) (e cid : String),
        c.get_company cid = Except.error e →
        get_company (Except.ok c) cid = Except.ok ("Error: " ++ e))
  ∧ (∀ (c : Linkedin) (e : String) (lim : Int),
        c.get_connections lim = Except.error e →
        get_connections (Except.ok c) lim = Except.ok ("Error: " ++ e))
  ∧ (∀ (c : Linkedin) (e gid : String),
        c.join_group gid = Except.error e →
        join_group (Except.ok c) gid = Except.ok ("Error: " ++ e))
  ∧ (∀ (c : Linkedin) (e gid : String) (lim : Int),
        c.get_group_posts gid lim = Except.error e →
        get_group_posts (Except.ok c) gid lim = Except.ok ("Error: " ++ e))
  ∧ (∀ (c : Linkedin) (e pid : String) (msg : Option String),
        c.send_invitation pid msg = Except.error e →
        send_invitation (Except.ok c) pid msg = Except.ok ("Error: " ++ e))
  ∧ (∀ (c : Linkedin) (e : String) (lim : Int),
        c.get_invitations lim = Except.error e →
        get_pending_invitations (Except.ok c) lim = Except.ok ("Error: " ++ e))
  ∧ (∀ (c : Linkedin) (e msg : String) (recipients : List Val),
        c.send_message recipients msg = Except.error e →
        send_message (Except.ok c) recipients msg = Except.ok ("Error: " ++ e))
  ∧ (∀ (c : Linkedin) (e : String) (lim : Int),
        c.get_conversations lim = Except.error e →
        get_conversations (Except.ok c) lim = Except.ok ("Error: " ++ e))
  ∧ (∀ (c : Linkedin) (e cid : String) (data : Val),
        c.update_company_page cid data = Except.error e →
        manage_company_page (Except.ok c) cid "update" data = Except.ok ("Error: " ++ e))
  ∧ (∀ (c : Linkedin) (e cid : String) (data content : Val),
        pyGet data "content" (Val.str "") = Except.ok content →
        c.company_share cid content = Except.error e →
        manage_company_page (Except.ok c) cid "post" data = Except.ok ("Error: " ++ e))
  ∧ (∀ (c : Linkedin) (e cid : String) (data : Val),
        c.get_company_analytics cid = Except.error e →
        manage_company_page (Except.ok c) cid "get_analytics" data = Except.ok ("Error: " ++ e))
  ∧ (∀ (c : Linkedin) (e pid : String),
        c.get_post_stats pid = Except.error e →
        get_post_analytics (Except.ok c) pid = Except.ok ("Error: " ++ e)) := by
  refine ⟨?_, ?_, ?_, ?_, ?_, ?_, ?_, ?_, ?_, ?_, ?_, ?_, ?_, ?_, ?_⟩
  · intro c e limit offset h
    simp [get_feed_posts, h]
  · intro c e comment vis h
    simp [create_share_update, h, tryTo, bind, Except.bind]
  · intro c e pid h
    simp [get_profile, h, tryTo, bind, Except.bind]
  · intro c e cid h
    simp [get_company, h, tryTo, bind, Except.bind]
  · intro c e lim h
    simp [get_connections, h, tryTo, bind, Except.bind]
  · intro c e gid h
    simp [join_group, h, tryTo, bind, Except.bind]
  · intro c e gid lim h
    simp [get_group_posts, h, tryTo, bind, Except.bind]
  · intro c e pid msg h
    simp [send_invitation, h, tryTo, bind, Except.bind]
  · intro c e lim h
    simp [get_pending_invitations, h, tryTo, bind, Except.bind]
  · intro c e msg recipients h
    simp [send_message, h, tryTo, bind, Except.bind]
  · intro c e lim h
    simp [get_conversations, h, tryTo, bind, Except.bind]
  · intro c e cid data h
    simp [manage_company_page, h, tryTo, bind, Except.bind]
  · intro c e cid data content h1 h2
    simp [manage_company_page, h1, h2, tryTo, bind, Except.bind]
  · intro c e cid data h
    simp [manage_company_page, h, tryTo, bind, Except.bind]
  · intro c e pid h
    simp [get_post_analytics, h, tryTo, bind, Except.bind]

/-- Witness for C1 at a concrete failing client and concrete inputs. -/
theorem C1_guarded_errors_witness :
    get_feed_posts (Except.ok (failClient "boom")) 10 0 = Except.ok "Error: boom" :=
  C1_guarded_errors.1 (failClient "boom") "boom" 10 0 rfl

/-- C2: `search_jobs` has no error guard: a failure of the client
construction, of the delegated job search, or of the per-job detail
fetch propagates abruptly to the caller, with no formatted error
text returned. -/
theorem C2_search_jobs_unguarded :
    (∀ (e keywords location : String) (limit offset : Int),
        search_jobs (Except.error e) keywords limit offset location = Except.error e)
  ∧ (∀ (c : Linkedin) (e keywords location : String) (limit offset : Int),
        c.search_jobs keywords location limit offset = Except.error e →
        search_jobs (Except.ok c) keywords limit offset location = Except.error e)
  ∧ (∀ (c : Linkedin) (e keywords location : String) (limit offset : Int),
        c.search_jobs keywords location limit offset =
          Except.ok (Val.list [Val.dict [("entityUrn", Val.str "urn:li:job:99")]]) →
        c.get_job "99" = Except.error e →
        search_jobs (Except.ok c) keywords limit offset location = Except.error e) := by
  refine ⟨?_, ?_, ?_⟩
  · intro e keywords location limit offset
    rfl
  · intro c e keywords location limit offset h
    simp [search_jobs, h, bind, Except.bind]
  · intro c e keywords location limit offset h1 h2
    simp [search_jobs, h1, bind, Except.bind, asList, List.foldlM, jobBlock,
      pyIndexS, List.lookup, splitLastColon, extract_job_id, splitCh, h2]

/-- Witness for C2 at a concrete failing client and concrete inputs. -/
theorem C2_search_jobs_unguarded_witness :
    search_jobs (Except.ok (failClient "down")) "data engineer" 2 0 "Jakarta" =
      Except.error "down" :=
  C2_search_jobs_unguarded.2.1 (failClient "down") "down" "data engineer" "Jakarta" 2 0 rfl

/-- C3: the job identifier is the substring after the last colon of the
resource name: `"urn:li:job:12345"` yields `"12345"`, every
colon-delimited compound name yields its final segment, and that
extracted identifier is what the per-job detail fetch is invoked
with. -/
theorem C3_job_id_extraction :
    extract_job_id "urn:li:job:12345" = "12345"
  ∧ (∀ (pre seg : String), ':' ∉ seg.data →
        extract_job_id (pre ++ ":" ++ seg) = seg)
  ∧ (∀ (c : Linkedin) (e keywords location urn : String) (limit offset : Int),
        c.search_jobs keywords location limit offset =
          Except.ok (Val.list [Val.dict [("entityUrn", Val.str urn)]]) →
        c.get_job (extract_job_id urn) = Except.error e →
        search_jobs (Except.ok c) keywords limit offset location = Except.error e) := by
  refine ⟨rfl, ?_, ?_⟩
  · intro pre seg h
    exact extract_job_id_after_last_colon pre seg h
  · intro c e keywords location urn limit offset h1 h2
    simp [search_jobs, h1, bind, Except.bind, asList, List.foldlM, jobBlock,
      pyIndexS, List.lookup, splitLastColon, h2]

/-- Witness for C3 at concrete strings and a concrete client. -/
theorem C3_job_id_extraction_witness :
    extract_job_id ("urn:li:job" ++ ":" ++ "777") = "777" :=
  C3_job_id_extraction.2.1 "urn:li:job" "777" (by decide)

/-- C4: `manage_company_page` with an action outside
update/post/get_analytics returns exactly `"Acción no válida"`, for
every client — hence without any delegated call being consulted. -/
theorem C4_invalid_action :
    ∀ (c : Linkedin) (company_id action : String) (data : Val),
      ¬ action = "update" → ¬ action = "post" → ¬ action = "get_analytics" →
      manage_company_page (Except.ok c) company_id action data =
        Except.ok "Acción no válida" := by
  intro c company_id action data h1 h2 h3
  simp [manage_company_page, h1, h2, h3, tryTo, pure, Except.pure]

/-- Witness for C4 at the action `"bogus"`. -/
theorem C4_invalid_action_witness :
    manage_company_page (Except.ok (failClient "x")) "c1" "bogus" Val.none =
      Except.ok "Acción no válida" :=
  C4_invalid_action (failClient "x") "c1" "bogus" Val.none
    (by decide) (by decide) (by decide)

/-- C5: every listing operation returns exactly its header line when
the delegated call yields zero items: empty text for the feed and job
search, and the bare headers for connections, group posts, pending
invitations and conversations. -/
theorem C5_empty_listings :
    (∀ (c : Linkedin) (limit offset : Int),
        c.get_feed_posts limit offset = Except.ok (Val.list []) →
        get_feed_posts (Except.ok c) limit offset = Except.ok "")
  ∧ (∀ (c : Linkedin) (keywords location : String) (limit offset : Int),
        c.search_jobs keywords location limit offset = Except.ok (Val.list []) →
        search_jobs (Except.ok c) keywords limit offset location = Except.ok "")
  ∧ (∀ (c : Linkedin) (lim : Int),
        c.get_connections lim = Except.ok (Val.list []) →
        get_connections (Except.ok c) lim = Except.ok "Conexiones:\n")
  ∧ (∀ (c : Linkedin) (gid : String) (lim : Int),
        c.get_group_posts gid lim = Except.ok (Val.list []) →
        get_group_posts (Except.ok c) gid lim =
          Except.ok ("Posts del grupo " ++ gid ++ ":\n"))
  ∧ (∀ (c : Linkedin) (lim : Int),
        c.get_invitations lim = Except.ok (Val.list []) →
        get_pending_invitations (Except.ok c) lim =
          Except.ok "Invitaciones pendientes:\n")
  ∧ (∀ (c : Linkedin) (lim : Int),
        c.get_conversations lim = Except.ok (Val.list []) →
        get_conversations (Except.ok c) lim =
          Except.ok "Conversaciones recientes:\n") := by
  refine ⟨?_, ?_, ?_, ?_, ?_, ?_⟩
  · intro c limit offset h
    simp [get_feed_posts, h, asList, List.foldlM, bind, Except.bind, pure, Except.pure]
  · intro c keywords location limit offset h
    simp [search_jobs, h, asList, List.foldlM, bind, Except.bind, pure, Except.pure]
  · intro c lim h
    simp [get_connections, h, tryTo, asList, List.foldlM, bind, Except.bind,
      pure, Except.pure]
  · intro c gid lim h
    simp [get_group_posts, h, tryTo, asList, List.foldlM, bind, Except.bind,
      pure, Except.pure]
  · intro c lim h
    simp [get_pending_invitations, h, tryTo, asList, List.foldlM, bind,
      Except.bind, pure, Except.pure]
  · intro c lim h
    simp [get_conversations, h, tryTo, asList, List.foldlM, bind, Except.bind,
      pure, Except.pure]

/-- Witness for C5: an empty connection listing at a concrete client. -/
theorem C5_empty_listings_witness :
    get_connections
        (Except.ok
          { failClient "x" with get_connections := fun _ => Except.ok (Val.list []) })
        10 =
      Except.ok "Conexiones:\n" :=
  C5_empty_listings.2.2.1
    { failClient "x" with get_connections := fun _ => Except.ok (Val.list []) }
    10 rfl

/-- C6: `get_profile` with no public identifier invokes the delegated
profile fetch with no profile argument, and with a (non-empty, hence
truthy) identifier invokes it with exactly that identifier; the result
is the guarded formatting of that fetch. -/
theorem C6_profile_branching :
    (∀ c : Linkedin,
        get_profile (Except.ok c) Option.none =
          Except.ok (tryTo (c.get_profile Option.none >>= profileFields)))
  ∧ (∀ (c : Linkedin) (pid : String), ¬ pid = "" →
        get_profile (Except.ok c) (some pid) =
          Except.ok (tryTo (c.get_profile (some pid) >>= profileFields))) := by
  refine ⟨fun c => rfl, ?_⟩
  intro c pid h
  have hne : pid.isEmpty = false := by
    cases hp : pid.isEmpty
    · rfl
    · exact absurd ((String.isEmpty_iff pid).mp hp) h
  simp [get_profile, truthyOptStr, hne]

/-- Witness for C6 at the identifier `"john"` and a concrete client. -/
theorem C6_profile_branching_witness :
    get_profile (Except.ok (failClient "z")) (some "john") =
      Except.ok (tryTo ((failClient "z").get_profile (some "john") >>= profileFields)) :=
  C6_profile_branching.2 (failClient "z") "john" (by decide)

/-- C7 counterexample: a conversation with no `participants` field
makes the formatting step raise an `IndexError` (the `[0]` subscript on
the defaulted empty list), so field accesses do not all yield safe
defaults; the operation then returns the caught error text instead of
a formatted listing. -/
theorem C7_defaults_counterexample :
    convLine (Val.dict []) = Except.error "list index out of range"
  ∧ get_conversations (Except.ok convMissingClient) 10 =
      Except.ok "Error: list index out of range" :=
  ⟨rfl, rfl⟩

/-- C7 amended: for the guarded operations, missing fields read via
`.get` default safely (empty string, empty mapping, or zero), including
the nested staff-count range of a company and the nested sender of an
invitation — but the conversation formatting subscripts the first
participant unguardedly, so a conversation with its participants
missing raises inside the guard and the operation returns an
`"Error: "` string. -/
theorem C7_defaults_amended :
    profileFields (Val.dict []) =
      Except.ok "\n        Nombre:  \n        Título: \n        Ubicación: \n        Industria: \n        "
  ∧ companyFields (Val.dict []) =
      Except.ok "\n        Nombre: \n        Industria: \n        Sitio Web: \n        Tamaño:  -  empleados\n        Descripción: \n        "
  ∧ connLine (Val.dict []) = Except.ok "-  : \n"
  ∧ groupPostLine (Val.dict []) = Except.ok "- : \n"
  ∧ invLine (Val.dict []) = Except.ok "- De:  \n"
  ∧ statsFields "p1" (Val.dict []) =
      Except.ok "\n        Estadísticas del post p1:\n        Likes: 0\n        Comentarios: 0\n        Compartidos: 0\n        Impresiones: 0\n        Engagement: 0%\n        "
  ∧ convLine (Val.dict []) = Except.error "list index out of range"
  ∧ get_conversations (Except.ok convMissingClient) 10 =
      Except.ok "Error: list index out of range" :=
  ⟨rfl, rfl, rfl, rfl, rfl, rfl, rfl, rfl⟩

/-- C8: in `get_feed_posts` only the delegated feed call is guarded;
an item missing `author_name` (or `content`) makes the unguarded
formatting loop propagate the `KeyError` to the caller instead of
returning an error string. -/
theorem C8_feed_formatting_unguarded :
    (∀ (c : Linkedin) (limit offset : Int),
        c.get_feed_posts limit offset = Except.ok (Val.list [Val.dict []]) →
        get_feed_posts (Except.ok c) limit offset =
          Except.error "\x27author_name\x27")
  ∧ (∀ (c : Linkedin) (limit offset : Int) (a : Val),
        c.get_feed_posts limit offset =
          Except.ok (Val.list [Val.dict [("author_name", a)]]) →
        get_feed_posts (Except.ok c) limit offset =
          Except.error "\x27content\x27") := by
  refine ⟨?_, ?_⟩
  · intro c limit offset h
    simp [get_feed_posts, h, asList, List.foldlM, feedLine, pyIndexS,
      List.lookup, bind, Except.bind]
  · intro c limit offset a h
    simp [get_feed_posts, h, asList, List.foldlM, feedLine, pyIndexS,
      List.lookup, bind, Except.bind]

/-- Witness for C8 at a concrete client returning one empty item. -/
theorem C8_feed_formatting_unguarded_witness :
    get_feed_posts
        (Except.ok
          { failClient "u" with
            get_feed_posts := fun _ _ => Except.ok (Val.list [Val.dict []]) })
        10 0 =
      Except.error "\x27author_name\x27" :=
  C8_feed_formatting_unguarded.1
    { failClient "u" with
      get_feed_posts := fun _ _ => Except.ok (Val.list [Val.dict []]) }
    10 0 rfl

/-- C9: `get_profile` treats the empty-string identifier like an
absent one: truthiness sends both to the own-profile branch, so the
results coincide for every client. -/
theorem C9_empty_public_id :
    ∀ c : Linkedin,
      get_profile (Except.ok c) (some "") = get_profile (Except.ok c) Option.none :=
  fun _ => rfl

/-- C10: `manage_company_page` with action `"post"` and an absent data
mapping fails on `data.get` inside the guard, before any delegated
company-share call, and returns the caught `AttributeError` text for
every client. -/
theorem C10_post_action_missing_data :
    ∀ (c : Linkedin) (company_id : String),
      manage_company_page (Except.ok c) company_id "post" Val.none =
        Except.ok "Error: \x27NoneType\x27 object has no attribute \x27get\x27" :=
  fun _ _ => rfl
